import Mathlib

/-!
Shallow embedding of `main.go` from the `youtube-experiments` repository.

The program is a CLI that issues one YouTube Data API request per invocation
and formats the response.  The external API client (`google.golang.org/api`)
is a collaborator: each command is embedded as a function from the list of
response items (the state of the world after a *successful* `call.Do()`) to
the output it writes and the value/error it returns.  Go runtime index
panics are modelled by an explicit `RunResult.panics` outcome, returned
errors by `RunResult.fails`, and `json.MarshalIndent` of a value `v` by the
output event `OutLine.jsonItem v` / `OutLine.jsonResponse items` (the
library serializer is opaque to this program; what matters is *which* value
is serialized).
-/

namespace YTExp

/-- Mirrors `youtube.ResourceId`: the discriminated id of a search result.
`Kind` is the discriminant string (`youtube#video` / `youtube#channel` /
`youtube#playlist` / other). -/
structure ResourceId where
  Kind : String
  VideoId : String
  ChannelId : String
  PlaylistId : String
deriving DecidableEq, Repr

/-- Mirrors `youtube.SearchResultSnippet` (only the `Title` field is used). -/
structure SearchResultSnippet where
  Title : String
deriving DecidableEq, Repr

/-- Mirrors `youtube.SearchResult`: one item of a search response. -/
structure SearchResult where
  Id : ResourceId
  Snippet : SearchResultSnippet
deriving DecidableEq, Repr

/-- Mirrors `youtube.ChannelContentDetailsRelatedPlaylists` (field `Uploads`). -/
structure ChannelContentDetailsRelatedPlaylists where
  Uploads : String
deriving DecidableEq, Repr

/-- Mirrors `youtube.ChannelContentDetails` (field `RelatedPlaylists`). -/
structure ChannelContentDetails where
  RelatedPlaylists : ChannelContentDetailsRelatedPlaylists
deriving DecidableEq, Repr

/-- Mirrors `youtube.Channel` (only `ContentDetails` is read by this program). -/
structure Channel where
  ContentDetails : ChannelContentDetails
deriving DecidableEq, Repr

/-- A Go `map[string]string`, embedded as an association list with at most
one entry per key.  `mapSet m k v` is the Go assignment `m[k] = v`:
overwrite in place if the key is present, append otherwise. -/
def mapSet : List (String × String) → String → String → List (String × String)
  | [], k, v => [(k, v)]
  | (k', v') :: rest, k, v =>
      if k' = k then (k, v) :: rest else (k', v') :: mapSet rest k v

/-- Go map read `m[k]` (the found value, `none` when absent). -/
def mapGet? : List (String × String) → String → Option String
  | [], _ => none
  | (k', v') :: rest, k => if k' = k then some v' else mapGet? rest k

/-- Number of entries of the association list carrying key `k`. -/
def countKey (m : List (String × String)) (k : String) : Nat :=
  (m.filter (fun e => e.1 = k)).length

/-- The three grouping maps built by `search` (`videos`, `channels`,
`playlists` in `main.go`). -/
structure GroupMaps where
  videos : List (String × String)
  channels : List (String × String)
  playlists : List (String × String)
deriving DecidableEq, Repr

/-- One iteration of the `for _, item := range response.Items` loop of
`search` (main.go lines 62-71): the `switch item.Id.Kind` statement. -/
def groupStep (maps : GroupMaps) (item : SearchResult) : GroupMaps :=
  if item.Id.Kind = "youtube#video" then
    ⟨mapSet maps.videos item.Id.VideoId item.Snippet.Title, maps.channels, maps.playlists⟩
  else if item.Id.Kind = "youtube#channel" then
    ⟨maps.videos, mapSet maps.channels item.Id.ChannelId item.Snippet.Title, maps.playlists⟩
  else if item.Id.Kind = "youtube#playlist" then
    ⟨maps.videos, maps.channels, mapSet maps.playlists item.Id.PlaylistId item.Snippet.Title⟩
  else
    maps

/-- The whole grouping loop of `search`: the three maps start empty
(`make(map[string]string)`) and every response item is folded in order. -/
def searchMaps (items : List SearchResult) : GroupMaps :=
  items.foldl groupStep ⟨[], [], []⟩

/-- Go `fmt` rendering of a `[]string` with verb `%v` (used in the
`get ... parts %v` header lines). -/
def fmtStringList (parts : List String) : String :=
  "[" ++ String.intercalate " " parts ++ "]"

/-- The entry-printing loop body of `printIDs`: one
`fmt.Printf("[%v] %v\n", id, title)` chunk per map entry. -/
def printEntries : List (String × String) → List String
  | [] => []
  | (id, title) :: rest => ("[" ++ id ++ "] " ++ title ++ "\n") :: printEntries rest

/-- `printIDs` (main.go lines 38-44), as the list of strings written to
stdout, one element per `fmt.Printf` call: the section header, one line per
map entry, then the `"\n\n"` blank separator.  (The Go parameter is named
`matches`, a reserved word in Lean.) -/
def printIDs (sectionName : String) (entries : List (String × String)) : List String :=
  ((sectionName ++ ":\n") :: printEntries entries) ++ ["\n\n"]

/-- Outcome of running a command body on a successful API response:
a Go runtime panic (out-of-range index), a returned `error`, or a normal
return carrying the result value. -/
inductive RunResult (α : Type) where
  | panics : RunResult α
  | fails : String → RunResult α
  | ok : α → RunResult α
deriving DecidableEq, Repr

/-- One stdout write of a command.  `text` is a plain `fmt.Printf` string;
`rawResponse` is the `fmt.Printf("%+v\n", response)` diagnostic echo;
`jsonItem v` / `jsonResponse items` are `fmt.Println` of
`json.MarshalIndent` applied to one item / to the whole response. -/
inductive OutLine (α : Type) where
  | text : String → OutLine α
  | rawResponse : List α → OutLine α
  | jsonItem : α → OutLine α
  | jsonResponse : List α → OutLine α
deriving DecidableEq, Repr

/-- `search` (main.go lines 46-77) after a successful API call: groups the
response items and prints the three blocks, in the order Videos, Channels,
Playlists; it performs no empty-result check and always returns `nil`. -/
def search (_query : String) (_maxResults : Int) (items : List SearchResult) :
    List String × RunResult Unit :=
  let maps := searchMaps items
  (printIDs "Videos" maps.videos ++ printIDs "Channels" maps.channels ++
      printIDs "Playlists" maps.playlists,
    RunResult.ok ())

/-- `videoDetails` (main.go lines 79-102) after a successful API call:
prints the header line, then on an empty item list echoes the raw response
and returns the error `no content found`; otherwise serializes the first
item (`response.Items[0]`, a runtime panic were the list empty there) to
indented JSON and prints it.  The item type is opaque to the command (it is
only marshaled), hence the type parameter. -/
def videoDetails {α : Type} (id : String) (parts : List String) (items : List α) :
    List (OutLine α) × RunResult Unit :=
  let hdr := OutLine.text ("get video " ++ id ++ ", parts " ++ fmtStringList parts ++ "\n")
  if items.length = 0 then
    ([hdr, OutLine.rawResponse items], RunResult.fails "no content found")
  else
    match items.head? with
    | none => ([hdr], RunResult.panics)
    | some v => ([hdr, OutLine.jsonItem v], RunResult.ok ())

/-- The request built by `playlistItems` (main.go lines 106-109): parts,
playlist id, the constant `MaxResults(3)`, the two `Fields` masks, and the
page token, attached only when the `pageToken` argument is non-empty. -/
structure PlaylistItemsCall where
  Parts : List String
  PlaylistId : String
  MaxResults : Int
  Fields : List String
  PageToken : Option String
deriving DecidableEq, Repr

/-- Builds the one `playlistItems` request exactly as main.go lines 106-109:
the base call, then `call = call.PageToken(pageToken)` guarded by
`pageToken != ""`. -/
def playlistItemsCall (id : String) (parts : List String) (pageToken : String) :
    PlaylistItemsCall :=
  let call : PlaylistItemsCall :=
    ⟨parts, id, 3, ["items/snippet/title", "items/snippet/resourceId/videoId"], none⟩
  if pageToken ≠ "" then
    ⟨call.Parts, call.PlaylistId, call.MaxResults, call.Fields, some pageToken⟩
  else call

/-- `playlistItems` (main.go lines 104-127): issues the single request built
by `playlistItemsCall` (returned as the first component — the function
contains no pagination loop), and on a successful response either errors on
an empty item list (echoing the raw response) or prints the whole response
as indented JSON. -/
def playlistItems {α : Type} (id : String) (parts : List String) (pageToken : String)
    (items : List α) :
    PlaylistItemsCall × List (OutLine α) × RunResult Unit :=
  let call := playlistItemsCall id parts pageToken
  let hdr := OutLine.text ("get video " ++ id ++ ", parts " ++ fmtStringList parts ++ "\n")
  if items.length = 0 then
    (call, [hdr, OutLine.rawResponse items], RunResult.fails "no content found")
  else
    (call, [hdr, OutLine.jsonResponse items], RunResult.ok ())

/-- `playlists` (main.go lines 129-150): channel-keyed playlist listing;
empty-result error with raw echo, otherwise whole response as JSON. -/
def playlists {α : Type} (id : String) (parts : List String) (items : List α) :
    List (OutLine α) × RunResult Unit :=
  let hdr := OutLine.text ("get playlist " ++ id ++ ", parts " ++ fmtStringList parts ++ "\n")
  if items.length = 0 then
    ([hdr, OutLine.rawResponse items], RunResult.fails "no content found")
  else
    ([hdr, OutLine.jsonResponse items], RunResult.ok ())

/-- `channels` (main.go lines 152-173): channel lookup by id; empty-result
error with raw echo, otherwise whole response as JSON. -/
def channels {α : Type} (id : String) (parts : List String) (items : List α) :
    List (OutLine α) × RunResult Unit :=
  let hdr := OutLine.text ("get channels " ++ id ++ ", parts " ++ fmtStringList parts ++ "\n")
  if items.length = 0 then
    ([hdr, OutLine.rawResponse items], RunResult.fails "no content found")
  else
    ([hdr, OutLine.jsonResponse items], RunResult.ok ())

/-- `getChannelID` (main.go lines 175-201) after a successful search call:
errors with `no result found` on zero items; reads `response.Items[0]` and
errors with `result not channel type` unless its kind is `youtube#channel`;
otherwise prints the response JSON and returns the channel id. -/
def getChannelID (channelName : String) (items : List SearchResult) :
    List (OutLine SearchResult) × RunResult String :=
  let hdr := OutLine.text ("get channels " ++ channelName ++ "\n")
  if items.length = 0 then
    ([hdr], RunResult.fails "no result found")
  else
    match items.head? with
    | none => ([hdr], RunResult.panics)
    | some item =>
        if item.Id.Kind ≠ "youtube#channel" then
          ([hdr], RunResult.fails "result not channel type")
        else
          ([hdr, OutLine.jsonResponse items], RunResult.ok item.Id.ChannelId)

/-- `getUploadsPlaylistID` (main.go lines 203-211) after a successful API
call: reads `response.Items[0].ContentDetails.RelatedPlaylists.Uploads`
with no empty-result guard, so an empty item list is a runtime index panic,
never a returned error. -/
def getUploadsPlaylistID (_channelID : String) (items : List Channel) :
    RunResult String :=
  match items.head? with
  | none => RunResult.panics
  | some i => RunResult.ok i.ContentDetails.RelatedPlaylists.Uploads

/-- Default value of a registered CLI flag. -/
inductive FlagDefault where
  | str : String → FlagDefault
  | int : Int → FlagDefault
deriving DecidableEq, Repr

/-- The flags registered at main.go lines 17-21: `flag.String("query",
"Google", ...)`, `flag.String("id", "", ...)`,
`flag.Int64("max-results", 5, ...)`, as (name, default) pairs in
registration order. -/
def programFlags : List (String × FlagDefault) :=
  [("query", FlagDefault.str "Google"),
   ("id", FlagDefault.str ""),
   ("max-results", FlagDefault.int 5)]

/-- The grouping loop inserts into `videos` exactly for items satisfying
this predicate (kind `youtube#video`, video id `k`). -/
def videoKey (k : String) (i : SearchResult) : Bool :=
  i.Id.Kind == "youtube#video" && i.Id.VideoId == k

/-- Items inserted into `channels` under key `k`. -/
def channelKey (k : String) (i : SearchResult) : Bool :=
  i.Id.Kind == "youtube#channel" && i.Id.ChannelId == k

/-- Items inserted into `playlists` under key `k`. -/
def playlistKey (k : String) (i : SearchResult) : Bool :=
  i.Id.Kind == "youtube#playlist" && i.Id.PlaylistId == k

/-- Title of the last item of the list satisfying `p` (the value a
last-write-wins map holds after inserting every match in order). -/
def lastMatchTitle (p : SearchResult → Bool) : List SearchResult → Option String
  | [] => none
  | i :: rest =>
      match lastMatchTitle p rest with
      | some t => some t
      | none => if p i then some i.Snippet.Title else none

/-- Concrete search items used to instantiate the theorems below. -/
def demoVideoA : SearchResult := ⟨⟨"youtube#video", "v1", "", ""⟩, ⟨"first title"⟩⟩

def demoVideoB : SearchResult := ⟨⟨"youtube#video", "v1", "", ""⟩, ⟨"second title"⟩⟩

def demoChannel : SearchResult := ⟨⟨"youtube#channel", "", "c1", ""⟩, ⟨"channel title"⟩⟩

def demoPlaylist : SearchResult := ⟨⟨"youtube#playlist", "", "", "p1"⟩, ⟨"playlist title"⟩⟩

def demoOther : SearchResult := ⟨⟨"youtube#unknown", "v9", "c9", "p9"⟩, ⟨"other title"⟩⟩

def demoChannelItem : Channel := ⟨⟨⟨"UUdemo-uploads"⟩⟩⟩

/-! ### Association-list lemmas -/

theorem mapGet?_mapSet_self (m : List (String × String)) (k v : String) :
    mapGet? (mapSet m k v) k = some v := by
  induction m with
  | nil => simp [mapSet, mapGet?]
  | cons e rest ih =>
      obtain ⟨k', v'⟩ := e
      by_cases h : k' = k
      · simp [mapSet, h, mapGet?]
      · simp [mapSet, h, mapGet?, ih]

theorem mapGet?_mapSet_ne (m : List (String × String)) (k v q : String) (h : q ≠ k) :
    mapGet? (mapSet m k v) q = mapGet? m q := by
  have hkq : ¬ k = q := fun hh => h hh.symm
  induction m with
  | nil => simp [mapSet, mapGet?, hkq]
  | cons e rest ih =>
      obtain ⟨k', v'⟩ := e
      by_cases hk : k' = k
      · subst hk
        simp [mapSet, mapGet?, hkq]
      · by_cases hq : k' = q
        · simp [mapSet, hk, mapGet?, hq, h]
        · simp [mapSet, hk, mapGet?, hq, ih]

theorem mapSet_keys (m : List (String × String)) (k v : String) :
    (mapSet m k v).map Prod.fst =
      if k ∈ m.map Prod.fst then m.map Prod.fst else m.map Prod.fst ++ [k] := by
  induction m with
  | nil => simp [mapSet]
  | cons e rest ih =>
      obtain ⟨k', v'⟩ := e
      by_cases h : k' = k
      · simp [mapSet, h]
      · have h' : ¬ k = k' := fun hh => h hh.symm
        by_cases hmem : k ∈ rest.map Prod.fst <;>
          simp [mapSet, h, h', ih, hmem]

theorem mapSet_nodupKeys (m : List (String × String)) (k v : String)
    (h : (m.map Prod.fst).Nodup) : ((mapSet m k v).map Prod.fst).Nodup := by
  rw [mapSet_keys]
  by_cases hmem : k ∈ m.map Prod.fst
  · simpa [hmem] using h
  · simp only [hmem, if_false]
    rw [List.nodup_append]
    refine ⟨h, List.nodup_singleton k, ?_⟩
    intro a ha hb
    rw [List.mem_singleton] at hb
    subst hb
    exact hmem ha

theorem countKey_eq_zero_of_not_mem (m : List (String × String)) (k : String)
    (h : k ∉ m.map Prod.fst) : countKey m k = 0 := by
  induction m with
  | nil => rfl
  | cons e rest ih =>
      obtain ⟨k', v'⟩ := e
      simp only [List.map_cons, List.mem_cons] at h
      push_neg at h
      obtain ⟨h1, h2⟩ := h
      have h1' : ¬ k' = k := fun hh => h1 hh.symm
      have step : countKey ((k', v') :: rest) k = countKey rest k := by
        simp [countKey, List.filter_cons, h1']
      rw [step]
      exact ih h2

theorem countKey_le_one_of_nodupKeys (m : List (String × String)) (k : String)
    (h : (m.map Prod.fst).Nodup) : countKey m k ≤ 1 := by
  induction m with
  | nil => simp [countKey]
  | cons e rest ih =>
      obtain ⟨k', v'⟩ := e
      simp only [List.map_cons, List.nodup_cons] at h
      by_cases hk : k' = k
      · subst hk
        have h0 : countKey rest k' = 0 := countKey_eq_zero_of_not_mem rest k' h.1
        have step : countKey ((k', v') :: rest) k' = countKey rest k' + 1 := by
          simp [countKey, List.filter_cons]
        rw [step, h0]
      · have step : countKey ((k', v') :: rest) k = countKey rest k := by
          simp [countKey, List.filter_cons, hk]
        rw [step]
        exact ih h.2

theorem countKey_pos_of_mapGet? (m : List (String × String)) (k t : String)
    (h : mapGet? m k = some t) : 1 ≤ countKey m k := by
  induction m with
  | nil => simp [mapGet?] at h
  | cons e rest ih =>
      obtain ⟨k', v'⟩ := e
      by_cases hk : k' = k
      · have step : countKey ((k', v') :: rest) k = countKey rest k + 1 := by
          simp [countKey, List.filter_cons, hk]
        omega
      · simp only [mapGet?, hk, if_false] at h
        have step : countKey ((k', v') :: rest) k = countKey rest k := by
          simp [countKey, List.filter_cons, hk]
        rw [step]
        exact ih h

/-! ### Grouping-loop lemmas -/

theorem groupStep_videos_of_eq (maps : GroupMaps) (i : SearchResult)
    (h : i.Id.Kind = "youtube#video") :
    (groupStep maps i).videos = mapSet maps.videos i.Id.VideoId i.Snippet.Title := by
  simp [groupStep, h]

theorem groupStep_videos_of_ne (maps : GroupMaps) (i : SearchResult)
    (h : i.Id.Kind ≠ "youtube#video") :
    (groupStep maps i).videos = maps.videos := by
  unfold groupStep
  split_ifs <;> simp_all

theorem groupStep_channels_of_eq (maps : GroupMaps) (i : SearchResult)
    (h : i.Id.Kind = "youtube#channel") :
    (groupStep maps i).channels = mapSet maps.channels i.Id.ChannelId i.Snippet.Title := by
  have hv : i.Id.Kind ≠ "youtube#video" := by rw [h]; decide
  simp [groupStep, hv, h]

theorem groupStep_channels_of_ne (maps : GroupMaps) (i : SearchResult)
    (h : i.Id.Kind ≠ "youtube#channel") :
    (groupStep maps i).channels = maps.channels := by
  unfold groupStep
  split_ifs <;> simp_all

theorem groupStep_playlists_of_eq (maps : GroupMaps) (i : SearchResult)
    (h : i.Id.Kind = "youtube#playlist") :
    (groupStep maps i).playlists = mapSet maps.playlists i.Id.PlaylistId i.Snippet.Title := by
  have hv : i.Id.Kind ≠ "youtube#video" := by rw [h]; decide
  have hc : i.Id.Kind ≠ "youtube#channel" := by rw [h]; decide
  simp [groupStep, hv, hc, h]

theorem groupStep_playlists_of_ne (maps : GroupMaps) (i : SearchResult)
    (h : i.Id.Kind ≠ "youtube#playlist") :
    (groupStep maps i).playlists = maps.playlists := by
  unfold groupStep
  split_ifs <;> simp_all

theorem groupStep_unrecognized (maps : GroupMaps) (i : SearchResult)
    (hv : i.Id.Kind ≠ "youtube#video") (hc : i.Id.Kind ≠ "youtube#channel")
    (hp : i.Id.Kind ≠ "youtube#playlist") : groupStep maps i = maps := by
  simp [groupStep, hv, hc, hp]

theorem foldl_groupStep_videos (items : List SearchResult) (k : String) :
    ∀ acc : GroupMaps,
      mapGet? (items.foldl groupStep acc).videos k =
        match lastMatchTitle (videoKey k) items with
        | some t => some t
        | none => mapGet? acc.videos k := by
  induction items with
  | nil => intro acc; rfl
  | cons i rest ih =>
      intro acc
      rw [List.foldl_cons, ih (groupStep acc i)]
      cases hrest : lastMatchTitle (videoKey k) rest with
      | some t => simp [lastMatchTitle, hrest]
      | none =>
          simp only [lastMatchTitle, hrest]
          by_cases hp : videoKey k i = true
          · obtain ⟨h1, h2⟩ : i.Id.Kind = "youtube#video" ∧ i.Id.VideoId = k := by
              simpa [videoKey, Bool.and_eq_true, beq_iff_eq] using hp
            simp only [hp, if_true]
            rw [groupStep_videos_of_eq _ _ h1, h2, mapGet?_mapSet_self]
          · rw [if_neg hp]
            by_cases hkind : i.Id.Kind = "youtube#video"
            · have hid : ¬ i.Id.VideoId = k := by
                intro hid
                exact hp (by simp [videoKey, hkind, hid])
              rw [groupStep_videos_of_eq _ _ hkind,
                mapGet?_mapSet_ne _ _ _ _ (fun hh => hid hh.symm)]
            · rw [groupStep_videos_of_ne _ _ hkind]

theorem foldl_groupStep_channels (items : List SearchResult) (k : String) :
    ∀ acc : GroupMaps,
      mapGet? (items.foldl groupStep acc).channels k =
        match lastMatchTitle (channelKey k) items with
        | some t => some t
        | none => mapGet? acc.channels k := by
  induction items with
  | nil => intro acc; rfl
  | cons i rest ih =>
      intro acc
      rw [List.foldl_cons, ih (groupStep acc i)]
      cases hrest : lastMatchTitle (channelKey k) rest with
      | some t => simp [lastMatchTitle, hrest]
      | none =>
          simp only [lastMatchTitle, hrest]
          by_cases hp : channelKey k i = true
          · obtain ⟨h1, h2⟩ : i.Id.Kind = "youtube#channel" ∧ i.Id.ChannelId = k := by
              simpa [channelKey, Bool.and_eq_true, beq_iff_eq] using hp
            simp only [hp, if_true]
            rw [groupStep_channels_of_eq _ _ h1, h2, mapGet?_mapSet_self]
          · rw [if_neg hp]
            by_cases hkind : i.Id.Kind = "youtube#channel"
            · have hid : ¬ i.Id.ChannelId = k := by
                intro hid
                exact hp (by simp [channelKey, hkind, hid])
              rw [groupStep_channels_of_eq _ _ hkind,
                mapGet?_mapSet_ne _ _ _ _ (fun hh => hid hh.symm)]
            · rw [groupStep_channels_of_ne _ _ hkind]

theorem foldl_groupStep_playlists (items : List SearchResult) (k : String) :
    ∀ acc : GroupMaps,
      mapGet? (items.foldl groupStep acc).playlists k =
        match lastMatchTitle (playlistKey k) items with
        | some t => some t
        | none => mapGet? acc.playlists k := by
  induction items with
  | nil => intro acc; rfl
  | cons i rest ih =>
      intro acc
      rw [List.foldl_cons, ih (groupStep acc i)]
      cases hrest : lastMatchTitle (playlistKey k) rest with
      | some t => simp [lastMatchTitle, hrest]
      | none =>
          simp only [lastMatchTitle, hrest]
          by_cases hp : playlistKey k i = true
          · obtain ⟨h1, h2⟩ : i.Id.Kind = "youtube#playlist" ∧ i.Id.PlaylistId = k := by
              simpa [playlistKey, Bool.and_eq_true, beq_iff_eq] using hp
            simp only [hp, if_true]
            rw [groupStep_playlists_of_eq _ _ h1, h2, mapGet?_mapSet_self]
          · rw [if_neg hp]
            by_cases hkind : i.Id.Kind = "youtube#playlist"
            · have hid : ¬ i.Id.PlaylistId = k := by
                intro hid
                exact hp (by simp [playlistKey, hkind, hid])
              rw [groupStep_playlists_of_eq _ _ hkind,
                mapGet?_mapSet_ne _ _ _ _ (fun hh => hid hh.symm)]
            · rw [groupStep_playlists_of_ne _ _ hkind]

theorem lastMatchTitle_eq_none_iff (p : SearchResult → Bool) (l : List SearchResult) :
    lastMatchTitle p l = none ↔ ∀ i ∈ l, p i = false := by
  induction l with
  | nil => simp [lastMatchTitle]
  | cons j rest ih =>
      cases hrest : lastMatchTitle p rest with
      | some t =>
          simp only [lastMatchTitle, hrest]
          constructor
          · intro h; cases h
          · intro h
            exact absurd (ih.mpr fun i hi => h i (List.mem_cons_of_mem _ hi))
              (by simp [hrest])
      | none =>
          simp only [lastMatchTitle, hrest]
          constructor
          · intro h i hi
            rcases List.mem_cons.mp hi with hij | hij
            · subst hij
              by_cases hp : p i = true
              · rw [if_pos hp] at h; cases h
              · simpa using hp
            · exact (ih.mp hrest) i hij
          · intro h
            rw [if_neg (by simp [h j (List.mem_cons_self j rest)])]

theorem lastMatchTitle_some_src (p : SearchResult → Bool) (l : List SearchResult) :
    ∀ t, lastMatchTitle p l = some t →
      ∃ i, i ∈ l ∧ p i = true ∧ i.Snippet.Title = t := by
  induction l with
  | nil => intro t h; cases h
  | cons j rest ih =>
      intro t h
      simp only [lastMatchTitle] at h
      cases hrest : lastMatchTitle p rest with
      | some t' =>
          rw [hrest] at h
          injection h with h
          subst h
          obtain ⟨i, hi, hp, ht⟩ := ih t' hrest
          exact ⟨i, List.mem_cons_of_mem _ hi, hp, ht⟩
      | none =>
          rw [hrest] at h
          by_cases hp : p j = true
          · rw [if_pos hp] at h
            injection h with h
            exact ⟨j, List.mem_cons_self j rest, hp, h⟩
          · rw [if_neg hp] at h
            cases h

theorem lastMatchTitle_isSome_of_mem (p : SearchResult → Bool) (l : List SearchResult)
    (i : SearchResult) (hmem : i ∈ l) (hp : p i = true) :
    ∃ t, lastMatchTitle p l = some t := by
  cases h : lastMatchTitle p l with
  | some t => exact ⟨t, rfl⟩
  | none =>
      have := (lastMatchTitle_eq_none_iff p l).mp h i hmem
      rw [hp] at this
      cases this

theorem lastMatchTitle_append (p : SearchResult → Bool) (l1 l2 : List SearchResult) :
    lastMatchTitle p (l1 ++ l2) =
      match lastMatchTitle p l2 with
      | some t => some t
      | none => lastMatchTitle p l1 := by
  induction l1 with
  | nil => cases h : lastMatchTitle p l2 <;> simp [h, lastMatchTitle]
  | cons j rest ih =>
      rw [List.cons_append]
      simp only [lastMatchTitle]
      rw [ih]
      cases h2 : lastMatchTitle p l2 with
      | some t => rfl
      | none => rfl

theorem groupStep_nodupKeys (maps : GroupMaps) (i : SearchResult)
    (hv : (maps.videos.map Prod.fst).Nodup) (hc : (maps.channels.map Prod.fst).Nodup)
    (hp : (maps.playlists.map Prod.fst).Nodup) :
    ((groupStep maps i).videos.map Prod.fst).Nodup ∧
      ((groupStep maps i).channels.map Prod.fst).Nodup ∧
      ((groupStep maps i).playlists.map Prod.fst).Nodup := by
  unfold groupStep
  split_ifs <;>
    exact ⟨by first | exact mapSet_nodupKeys _ _ _ hv | exact hv,
           by first | exact mapSet_nodupKeys _ _ _ hc | exact hc,
           by first | exact mapSet_nodupKeys _ _ _ hp | exact hp⟩

theorem searchMaps_nodupKeys (items : List SearchResult) :
    (((searchMaps items).videos.map Prod.fst).Nodup) ∧
      (((searchMaps items).channels.map Prod.fst).Nodup) ∧
      (((searchMaps items).playlists.map Prod.fst).Nodup) := by
  unfold searchMaps
  suffices h : ∀ acc : GroupMaps,
      ((acc.videos.map Prod.fst).Nodup ∧ (acc.channels.map Prod.fst).Nodup ∧
        (acc.playlists.map Prod.fst).Nodup) →
      (((items.foldl groupStep acc).videos.map Prod.fst).Nodup ∧
        ((items.foldl groupStep acc).channels.map Prod.fst).Nodup ∧
        ((items.foldl groupStep acc).playlists.map Prod.fst).Nodup) by
    exact h ⟨[], [], []⟩ ⟨List.nodup_nil, List.nodup_nil, List.nodup_nil⟩
  induction items with
  | nil => exact fun acc h => h
  | cons i rest ih =>
      intro acc h
      rw [List.foldl_cons]
      exact ih _ (groupStep_nodupKeys acc i h.1 h.2.1 h.2.2)

theorem searchMaps_videos_lookup (items : List SearchResult) (k : String) :
    mapGet? (searchMaps items).videos k = lastMatchTitle (videoKey k) items := by
  have h := foldl_groupStep_videos items k ⟨[], [], []⟩
  unfold searchMaps
  rw [h]
  cases lastMatchTitle (videoKey k) items <;> rfl

theorem searchMaps_channels_lookup (items : List SearchResult) (k : String) :
    mapGet? (searchMaps items).channels k = lastMatchTitle (channelKey k) items := by
  have h := foldl_groupStep_channels items k ⟨[], [], []⟩
  unfold searchMaps
  rw [h]
  cases lastMatchTitle (channelKey k) items <;> rfl

theorem searchMaps_playlists_lookup (items : List SearchResult) (k : String) :
    mapGet? (searchMaps items).playlists k = lastMatchTitle (playlistKey k) items := by
  have h := foldl_groupStep_playlists items k ⟨[], [], []⟩
  unfold searchMaps
  rw [h]
  cases lastMatchTitle (playlistKey k) items <;> rfl

theorem lastMatchTitle_of_suffix (p : SearchResult → Bool) (l1 post : List SearchResult)
    (b : SearchResult) (hb : p b = true) (hpost : ∀ j ∈ post, p j = false) :
    lastMatchTitle p (l1 ++ b :: post) = some b.Snippet.Title := by
  rw [lastMatchTitle_append]
  have hpost' : lastMatchTitle p post = none := (lastMatchTitle_eq_none_iff p post).mpr hpost
  simp [lastMatchTitle, hpost', hb]

theorem printEntries_length (m : List (String × String)) :
    (printEntries m).length = m.length := by
  induction m with
  | nil => rfl
  | cons e rest ih =>
      obtain ⟨id, title⟩ := e
      simp [printEntries, ih]

theorem printEntries_get? (m : List (String × String)) :
    ∀ j, (printEntries m).get? j =
      (m.get? j).map (fun p => "[" ++ p.1 ++ "] " ++ p.2 ++ "\n") := by
  induction m with
  | nil => intro j; cases j <;> rfl
  | cons e rest ih =>
      obtain ⟨id, title⟩ := e
      intro j
      cases j with
      | zero => rfl
      | succ j => simpa [printEntries] using ih j

/-! ### Claim theorems -/

/-- C1: the search command places every item whose kind is `youtube#video`,
`youtube#channel`, or `youtube#playlist` into the matching output map (keyed
by the matching subtype id, with the snippet title as value); every entry of
each map comes only from an item of the matching kind; and an item with any
other kind is placed into none of the three maps (the grouping step leaves
all three maps unchanged on it). -/
theorem search_partitions_by_kind (items : List SearchResult) :
    (∀ i ∈ items, i.Id.Kind = "youtube#video" →
        ∃ t, mapGet? (searchMaps items).videos i.Id.VideoId = some t) ∧
    (∀ i ∈ items, i.Id.Kind = "youtube#channel" →
        ∃ t, mapGet? (searchMaps items).channels i.Id.ChannelId = some t) ∧
    (∀ i ∈ items, i.Id.Kind = "youtube#playlist" →
        ∃ t, mapGet? (searchMaps items).playlists i.Id.PlaylistId = some t) ∧
    (∀ k t, mapGet? (searchMaps items).videos k = some t →
        ∃ i, i ∈ items ∧ i.Id.Kind = "youtube#video" ∧ i.Id.VideoId = k ∧
          i.Snippet.Title = t) ∧
    (∀ k t, mapGet? (searchMaps items).channels k = some t →
        ∃ i, i ∈ items ∧ i.Id.Kind = "youtube#channel" ∧ i.Id.ChannelId = k ∧
          i.Snippet.Title = t) ∧
    (∀ k t, mapGet? (searchMaps items).playlists k = some t →
        ∃ i, i ∈ items ∧ i.Id.Kind = "youtube#playlist" ∧ i.Id.PlaylistId = k ∧
          i.Snippet.Title = t) ∧
    (∀ (maps : GroupMaps) (i : SearchResult),
        i.Id.Kind ≠ "youtube#video" → i.Id.Kind ≠ "youtube#channel" →
        i.Id.Kind ≠ "youtube#playlist" → groupStep maps i = maps) := by
  refine ⟨?_, ?_, ?_, ?_, ?_, ?_, ?_⟩
  · intro i hi hk
    rw [searchMaps_videos_lookup]
    exact lastMatchTitle_isSome_of_mem _ _ i hi (by simp [videoKey, hk])
  · intro i hi hk
    rw [searchMaps_channels_lookup]
    exact lastMatchTitle_isSome_of_mem _ _ i hi (by simp [channelKey, hk])
  · intro i hi hk
    rw [searchMaps_playlists_lookup]
    exact lastMatchTitle_isSome_of_mem _ _ i hi (by simp [playlistKey, hk])
  · intro k t h
    rw [searchMaps_videos_lookup] at h
    obtain ⟨i, hi, hp, ht⟩ := lastMatchTitle_some_src _ _ t h
    obtain ⟨h1, h2⟩ : i.Id.Kind = "youtube#video" ∧ i.Id.VideoId = k := by
      simpa [videoKey, Bool.and_eq_true, beq_iff_eq] using hp
    exact ⟨i, hi, h1, h2, ht⟩
  · intro k t h
    rw [searchMaps_channels_lookup] at h
    obtain ⟨i, hi, hp, ht⟩ := lastMatchTitle_some_src _ _ t h
    obtain ⟨h1, h2⟩ : i.Id.Kind = "youtube#channel" ∧ i.Id.ChannelId = k := by
      simpa [channelKey, Bool.and_eq_true, beq_iff_eq] using hp
    exact ⟨i, hi, h1, h2, ht⟩
  · intro k t h
    rw [searchMaps_playlists_lookup] at h
    obtain ⟨i, hi, hp, ht⟩ := lastMatchTitle_some_src _ _ t h
    obtain ⟨h1, h2⟩ : i.Id.Kind = "youtube#playlist" ∧ i.Id.PlaylistId = k := by
      simpa [playlistKey, Bool.and_eq_true, beq_iff_eq] using hp
    exact ⟨i, hi, h1, h2, ht⟩
  · exact fun maps i hv hc hp => groupStep_unrecognized maps i hv hc hp

/-- C1 witness: on a concrete mixed list, the video item is found in the
videos map and the unrecognized item funds no entry of the videos map. -/
theorem search_partitions_by_kind_witness :
    ∃ t, mapGet?
        (searchMaps [demoVideoA, demoChannel, demoPlaylist, demoOther]).videos
        demoVideoA.Id.VideoId = some t :=
  (search_partitions_by_kind [demoVideoA, demoChannel, demoPlaylist, demoOther]).1
    demoVideoA (List.mem_cons_self _ _) rfl

/-- C8: when the search input contains two items of the same recognized kind
with the same subtype id (and no later item of that kind carries the id),
the matching map holds exactly one entry for that id, and its value is the
title of the later item. -/
theorem search_last_write_wins (pre mid post : List SearchResult) (a b : SearchResult) :
    (a.Id.Kind = "youtube#video" → b.Id.Kind = "youtube#video" →
      a.Id.VideoId = b.Id.VideoId →
      (∀ j ∈ post, videoKey b.Id.VideoId j = false) →
      mapGet? (searchMaps (pre ++ a :: mid ++ b :: post)).videos b.Id.VideoId =
          some b.Snippet.Title ∧
        countKey (searchMaps (pre ++ a :: mid ++ b :: post)).videos b.Id.VideoId = 1) ∧
    (a.Id.Kind = "youtube#channel" → b.Id.Kind = "youtube#channel" →
      a.Id.ChannelId = b.Id.ChannelId →
      (∀ j ∈ post, channelKey b.Id.ChannelId j = false) →
      mapGet? (searchMaps (pre ++ a :: mid ++ b :: post)).channels b.Id.ChannelId =
          some b.Snippet.Title ∧
        countKey (searchMaps (pre ++ a :: mid ++ b :: post)).channels b.Id.ChannelId = 1) ∧
    (a.Id.Kind = "youtube#playlist" → b.Id.Kind = "youtube#playlist" →
      a.Id.PlaylistId = b.Id.PlaylistId →
      (∀ j ∈ post, playlistKey b.Id.PlaylistId j = false) →
      mapGet? (searchMaps (pre ++ a :: mid ++ b :: post)).playlists b.Id.PlaylistId =
          some b.Snippet.Title ∧
        countKey (searchMaps (pre ++ a :: mid ++ b :: post)).playlists b.Id.PlaylistId = 1) := by
  refine ⟨?_, ?_, ?_⟩
  · intro _ha hb _hab hpost
    have hl : mapGet? (searchMaps (pre ++ a :: mid ++ b :: post)).videos b.Id.VideoId =
        some b.Snippet.Title := by
      rw [searchMaps_videos_lookup,
        show pre ++ a :: mid ++ b :: post = (pre ++ a :: mid) ++ b :: post by simp]
      exact lastMatchTitle_of_suffix _ _ post b (by simp [videoKey, hb]) hpost
    refine ⟨hl, le_antisymm ?_ (countKey_pos_of_mapGet? _ _ _ hl)⟩
    exact countKey_le_one_of_nodupKeys _ _ (searchMaps_nodupKeys _).1
  · intro _ha hb _hab hpost
    have hl : mapGet? (searchMaps (pre ++ a :: mid ++ b :: post)).channels b.Id.ChannelId =
        some b.Snippet.Title := by
      rw [searchMaps_channels_lookup,
        show pre ++ a :: mid ++ b :: post = (pre ++ a :: mid) ++ b :: post by simp]
      exact lastMatchTitle_of_suffix _ _ post b (by simp [channelKey, hb]) hpost
    refine ⟨hl, le_antisymm ?_ (countKey_pos_of_mapGet? _ _ _ hl)⟩
    exact countKey_le_one_of_nodupKeys _ _ (searchMaps_nodupKeys _).2.1
  · intro _ha hb _hab hpost
    have hl : mapGet? (searchMaps (pre ++ a :: mid ++ b :: post)).playlists b.Id.PlaylistId =
        some b.Snippet.Title := by
      rw [searchMaps_playlists_lookup,
        show pre ++ a :: mid ++ b :: post = (pre ++ a :: mid) ++ b :: post by simp]
      exact lastMatchTitle_of_suffix _ _ post b (by simp [playlistKey, hb]) hpost
    refine ⟨hl, le_antisymm ?_ (countKey_pos_of_mapGet? _ _ _ hl)⟩
    exact countKey_le_one_of_nodupKeys _ _ (searchMaps_nodupKeys _).2.2

/-- C8 witness: two video items sharing id `v1`; the map keeps one entry,
with the later title. -/
theorem search_last_write_wins_witness :
    mapGet? (searchMaps ([] ++ demoVideoA :: [] ++ demoVideoB :: [demoChannel])).videos
        demoVideoB.Id.VideoId = some demoVideoB.Snippet.Title ∧
      countKey (searchMaps ([] ++ demoVideoA :: [] ++ demoVideoB :: [demoChannel])).videos
        demoVideoB.Id.VideoId = 1 :=
  (search_last_write_wins [] [] [demoChannel] demoVideoA demoVideoB).1 rfl rfl rfl
    (by decide)

/-- C2 counterexample: on a successful search response with zero items the
search command does not raise an empty-result error — it proceeds to format
(empty) grouped output and returns success. -/
theorem search_empty_items_no_error :
    search "Google" 5 [] =
      (["Videos:\n", "\n\n", "Channels:\n", "\n\n", "Playlists:\n", "\n\n"],
        RunResult.ok ()) := rfl

/-- C2 (amended): every detail-style command (video details, playlist items,
playlists-by-channel, channel lookup) and the channel-id lookup raise an
empty-result error on a successful response with zero items; the search
command performs no such check and returns success. -/
theorem empty_result_error_per_command {α : Type} (id chName q pageToken : String)
    (parts : List String) (n : Int) :
    ((videoDetails id parts ([] : List α)).2 = RunResult.fails "no content found") ∧
    ((playlistItems id parts pageToken ([] : List α)).2.2 =
        RunResult.fails "no content found") ∧
    ((playlists id parts ([] : List α)).2 = RunResult.fails "no content found") ∧
    ((channels id parts ([] : List α)).2 = RunResult.fails "no content found") ∧
    ((getChannelID chName []).2 = RunResult.fails "no result found") ∧
    ((search q n []).2 = RunResult.ok ()) :=
  ⟨rfl, rfl, rfl, rfl, rfl, rfl⟩

/-- C3: the uploads-playlist lookup has no empty-result check — an empty
item list is an index-out-of-bounds fault (never a returned error value),
and a non-empty item list returns the nested uploads-playlist
id of the first item directly. -/
theorem getUploadsPlaylistID_no_guard (channelID : String) :
    (getUploadsPlaylistID channelID [] = RunResult.panics) ∧
    (∀ (msg : String) (items : List Channel),
      getUploadsPlaylistID channelID items ≠ RunResult.fails msg) ∧
    (∀ (i : Channel) (rest : List Channel),
      getUploadsPlaylistID channelID (i :: rest) =
        RunResult.ok i.ContentDetails.RelatedPlaylists.Uploads) := by
  refine ⟨rfl, ?_, fun i rest => rfl⟩
  intro msg items h
  cases items with
  | nil => cases h
  | cons i rest => cases h

/-- C3 witness: concrete non-empty response returns the nested uploads id;
the empty response is the panic outcome. -/
theorem getUploadsPlaylistID_no_guard_witness :
    getUploadsPlaylistID "ch" [demoChannelItem] = RunResult.ok "UUdemo-uploads" ∧
      getUploadsPlaylistID "ch" [] = RunResult.panics :=
  ⟨(getUploadsPlaylistID_no_guard "ch").2.2 demoChannelItem [],
    (getUploadsPlaylistID_no_guard "ch").1⟩

/-- C4: `getChannelID` fails with `no result found` on zero items, fails
with `result not channel type` (returning no id) when the kind of the first
result is not `youtube#channel`, and otherwise returns the channel id of
that result. -/
theorem getChannelID_spec (chName : String) :
    ((getChannelID chName []).2 = RunResult.fails "no result found") ∧
    (∀ (i : SearchResult) (rest : List SearchResult),
      i.Id.Kind ≠ "youtube#channel" →
        (getChannelID chName (i :: rest)).2 = RunResult.fails "result not channel type") ∧
    (∀ (i : SearchResult) (rest : List SearchResult),
      i.Id.Kind = "youtube#channel" →
        (getChannelID chName (i :: rest)).2 = RunResult.ok i.Id.ChannelId) := by
  refine ⟨rfl, ?_, ?_⟩
  · intro i rest h
    simp [getChannelID, h]
  · intro i rest h
    simp [getChannelID, h]

/-- C4 witness: a channel-kind result yields its id; a video-kind top result
yields the `result not channel type` failure. -/
theorem getChannelID_spec_witness :
    (getChannelID "name" [demoChannel]).2 = RunResult.ok "c1" ∧
      (getChannelID "name" [demoVideoA]).2 = RunResult.fails "result not channel type" :=
  ⟨(getChannelID_spec "name").2.2 demoChannel [] rfl,
    (getChannelID_spec "name").2.1 demoVideoA [] (by decide)⟩

/-- C5: each detail-style command on an empty item list echoes the raw
response and returns the `no content found` error (and never reaches the
first-element read, so there is no panic on that path); on a non-empty
response the video-details command serializes exactly the first item to
indented JSON and prints it. -/
theorem detail_commands_empty_echo_and_first_item {α : Type}
    (id pageToken : String) (parts : List String) :
    (videoDetails id parts ([] : List α) =
      ([OutLine.text ("get video " ++ id ++ ", parts " ++ fmtStringList parts ++ "\n"),
        OutLine.rawResponse []], RunResult.fails "no content found")) ∧
    ((playlistItems id parts pageToken ([] : List α)).2 =
      ([OutLine.text ("get video " ++ id ++ ", parts " ++ fmtStringList parts ++ "\n"),
        OutLine.rawResponse []], RunResult.fails "no content found")) ∧
    (playlists id parts ([] : List α) =
      ([OutLine.text ("get playlist " ++ id ++ ", parts " ++ fmtStringList parts ++ "\n"),
        OutLine.rawResponse []], RunResult.fails "no content found")) ∧
    (channels id parts ([] : List α) =
      ([OutLine.text ("get channels " ++ id ++ ", parts " ++ fmtStringList parts ++ "\n"),
        OutLine.rawResponse []], RunResult.fails "no content found")) ∧
    (∀ (v : α) (rest : List α),
      videoDetails id parts (v :: rest) =
        ([OutLine.text ("get video " ++ id ++ ", parts " ++ fmtStringList parts ++ "\n"),
          OutLine.jsonItem v], RunResult.ok ())) :=
  ⟨rfl, rfl, rfl, rfl, fun _ _ => rfl⟩

/-- C6: the grouped-print routine emits the section header, one `[id] title`
line per map entry (entry `j` of the map is output element `j + 1`), and a
trailing blank separator — for an empty map only the header and the
separator; the search command prints the blocks in the order Videos,
Channels, Playlists. -/
theorem printIDs_block_structure (s : String) (m : List (String × String)) :
    ((printIDs s m).length = m.length + 2) ∧
    ((printIDs s m).head? = some (s ++ ":\n")) ∧
    (∀ (j : Nat) (id title : String), m.get? j = some (id, title) →
      (printIDs s m).get? (j + 1) = some ("[" ++ id ++ "] " ++ title ++ "\n")) ∧
    ((printIDs s m).getLast? = some "\n\n") ∧
    (m = [] → printIDs s m = [s ++ ":\n", "\n\n"]) ∧
    (∀ (q : String) (n : Int) (items : List SearchResult),
      (search q n items).1 =
        printIDs "Videos" (searchMaps items).videos ++
          printIDs "Channels" (searchMaps items).channels ++
          printIDs "Playlists" (searchMaps items).playlists) := by
  refine ⟨?_, rfl, ?_, ?_, ?_, fun q n items => rfl⟩
  · simp [printIDs, printEntries_length]
  · intro j id title hj
    have hlt : j < (printEntries m).length := by
      rw [printEntries_length]
      exact List.get?_eq_some.mp hj |>.1
    have happ : (printEntries m ++ ["\n\n"]).get? j = (printEntries m).get? j := by
      rw [List.get?_eq_getElem?, List.get?_eq_getElem?]
      exact List.getElem?_append_left hlt
    simp only [printIDs]
    rw [List.cons_append, List.get?_cons_succ, happ, printEntries_get?, hj]
    rfl
  · simp only [printIDs]
    exact List.getLast?_concat _
  · intro h
    subst h
    rfl

/-- C6 witness: a one-entry map prints header, the entry line, separator;
an empty map prints only header and separator. -/
theorem printIDs_block_structure_witness :
    (printIDs "Videos" [("v1", "T")]).get? 1 = some "[v1] T\n" ∧
      printIDs "Channels" [] = ["Channels:\n", "\n\n"] :=
  ⟨(printIDs_block_structure "Videos" [("v1", "T")]).2.2.1 0 "v1" "T" rfl,
    (printIDs_block_structure "Channels" []).2.2.2.2.1 rfl⟩

/-- C7: the playlist-items command always requests max-results 3, restricts
the response to exactly the snippet-title and video-id field masks, and
issues one request carrying at most one (optional) page token. -/
theorem playlistItems_call_params (id : String) (parts : List String) (tok : String) :
    ((playlistItemsCall id parts tok).MaxResults = 3) ∧
    ((playlistItemsCall id parts tok).Fields =
      ["items/snippet/title", "items/snippet/resourceId/videoId"]) ∧
    ((playlistItemsCall id parts tok).PageToken = none ∨
      (playlistItemsCall id parts tok).PageToken = some tok) ∧
    (∀ (α : Type) (items : List α),
      (playlistItems id parts tok items).1 = playlistItemsCall id parts tok) := by
  refine ⟨?_, ?_, ?_, ?_⟩
  · unfold playlistItemsCall
    split_ifs <;> rfl
  · unfold playlistItemsCall
    split_ifs <;> rfl
  · unfold playlistItemsCall
    split_ifs <;> simp
  · intro α items
    unfold playlistItems
    split_ifs <;> rfl

/-- C9: the registered CLI flags are `query` (string, default "Google"),
`id` (string, default empty), and `max-results` (integer, default 5). -/
theorem programFlags_spec :
    programFlags.length = 3 ∧
    programFlags.lookup "query" = some (FlagDefault.str "Google") ∧
    programFlags.lookup "id" = some (FlagDefault.str "") ∧
    programFlags.lookup "max-results" = some (FlagDefault.int 5) :=
  ⟨rfl, rfl, rfl, rfl⟩

/-- C10: the playlist-items request carries a page token exactly when the
`pageToken` argument is non-empty; the empty string means no token is
attached at all (not a literal empty token). -/
theorem playlistItems_pageToken_opt (id : String) (parts : List String) (tok : String) :
    (playlistItemsCall id parts tok).PageToken =
      if tok = "" then none else some tok := by
  unfold playlistItemsCall
  by_cases h : tok = "" <;> simp [h]

/-- C2 (amended) witness: the per-command empty-response outcomes at
concrete arguments. -/
theorem empty_result_error_per_command_witness :
    ((videoDetails "vid" ["snippet"] ([] : List String)).2 =
        RunResult.fails "no content found") ∧
    ((playlistItems "vid" ["snippet"] "" ([] : List String)).2.2 =
        RunResult.fails "no content found") ∧
    ((playlists "vid" ["snippet"] ([] : List String)).2 =
        RunResult.fails "no content found") ∧
    ((channels "vid" ["snippet"] ([] : List String)).2 =
        RunResult.fails "no content found") ∧
    ((getChannelID "nm" []).2 = RunResult.fails "no result found") ∧
    ((search "Google" 5 []).2 = RunResult.ok ()) :=
  @empty_result_error_per_command String "vid" "nm" "Google" "" ["snippet"] 5

/-- C5 witness: on a concrete one-item response the video-details command
prints the header and the indented JSON of exactly the first item. -/
theorem detail_commands_empty_echo_and_first_item_witness :
    videoDetails "vid" ["snippet"] ["item0", "item1"] =
      ([OutLine.text ("get video " ++ "vid" ++ ", parts " ++ fmtStringList ["snippet"] ++ "\n"),
        OutLine.jsonItem "item0"], RunResult.ok ()) :=
  (@detail_commands_empty_echo_and_first_item String "vid" "" ["snippet"]).2.2.2.2
    "item0" ["item1"]

/-- C7 witness: the concrete playlist-items request parameters. -/
theorem playlistItems_call_params_witness :
    ((playlistItemsCall "pl" ["snippet"] "tok").MaxResults = 3) ∧
    ((playlistItemsCall "pl" ["snippet"] "tok").Fields =
      ["items/snippet/title", "items/snippet/resourceId/videoId"]) ∧
    ((playlistItemsCall "pl" ["snippet"] "tok").PageToken = none ∨
      (playlistItemsCall "pl" ["snippet"] "tok").PageToken = some "tok") :=
  ⟨(playlistItems_call_params "pl" ["snippet"] "tok").1,
    (playlistItems_call_params "pl" ["snippet"] "tok").2.1,
    (playlistItems_call_params "pl" ["snippet"] "tok").2.2.1⟩

/-- C10 witness: empty token means no token attached; non-empty token is
forwarded. -/
theorem playlistItems_pageToken_opt_witness :
    (playlistItemsCall "pl" ["snippet"] "").PageToken = none ∧
      (playlistItemsCall "pl" ["snippet"] "tok").PageToken = some "tok" := by
  constructor
  · have h := playlistItems_pageToken_opt "pl" ["snippet"] ""
    simpa using h
  · have h := playlistItems_pageToken_opt "pl" ["snippet"] "tok"
    simpa using h

end YTExp
